import Mathlib

/-!
Shallow embedding of `src/api.ts` of editorconfig-vscode.

JavaScript/TypeScript values flowing through the API (fields of
`editorconfig.KnownProps` and `vscode.TextEditorOptions`) are loosely typed:
a field may hold a number, a string sentinel such as "tab"/"tabSize"/"auto"/
"unset", a boolean, or be `undefined`/absent.  We model such a value with the
inductive `JSVal`; an absent field is modelled as `JSVal.undef` (property
access on an absent key in JS yields `undefined`, and the source only ever
reads fields, so deletion and `undefined` coincide observationally).
-/

inductive JSVal where
  | undef
  | bool (b : Bool)
  | num (n : Int)
  | nan
  | str (s : String)
deriving Repr, DecidableEq

/-- Semantics of the JS nullish-coalescing operator `a ?? b` (no `null` occurs
in the source's types, only `undefined`). -/
def JSVal.orElse (a b : JSVal) : JSVal :=
  if a = .undef then b else a

/-- JS truthiness of a value. -/
def JSVal.truthy : JSVal → Bool
  | .undef => false
  | .bool b => b
  | .num n => n ≠ 0
  | .nan => false
  | .str s => s ≠ ""

/-- Whether `typeof v === 'number'` holds in JS (`NaN` is a number). -/
def JSVal.isNum : JSVal → Bool
  | .num _ => true
  | .nan => true
  | _ => false

/-- JS `String(v)` conversion. -/
def JSVal.toJSString : JSVal → String
  | .undef => "undefined"
  | .bool b => if b then "true" else "false"
  | .num n => toString n
  | .nan => "NaN"
  | .str s => s

/-- The `editorconfig.KnownProps` fields read or written by `src/api.ts`
(an absent key is `.undef`). -/
structure KnownProps where
  indent_style : JSVal := .undef
  indent_size : JSVal := .undef
  tab_width : JSVal := .undef
deriving Repr, DecidableEq

/-- The `vscode.TextEditorOptions` fields read or written by `src/api.ts`. -/
structure TextEditorOptions where
  tabSize : JSVal := .undef
  indentSize : JSVal := .undef
  insertSpaces : JSVal := .undef
deriving Repr, DecidableEq

/-- The `editor.*` workspace-configuration keys `src/api.ts` reads via
`workspace.getConfiguration('editor', doc).get(...)`. -/
structure EditorSection where
  detectIndentation : JSVal := .undef
  tabSize : JSVal := .undef
  indentSize : JSVal := .undef
  insertSpaces : JSVal := .undef
deriving Repr, DecidableEq

/-- Embedding of `pickWorkspaceDefaults` (src/api.ts lines 72-99): if
`editor.detectIndentation` is truthy return `{}`, otherwise the three raw
settings. -/
def pickWorkspaceDefaults (cfg : EditorSection) : TextEditorOptions :=
  if cfg.detectIndentation.truthy then
    {}
  else
    { tabSize := cfg.tabSize
      indentSize := cfg.indentSize
      insertSpaces := cfg.insertSpaces }

/-- Embedding of `fromEditorConfig` (src/api.ts lines 157-191), step for step:
the two fallback chains, the two "tab"-sentinel post-fixes, the conditional
`insertSpaces` assignment, and the `delete` of `undefined`/"unset" fields
(deletion modelled as `.undef`). -/
def fromEditorConfig (config : KnownProps) (defaults : TextEditorOptions) :
    TextEditorOptions :=
  let tabSize0 : JSVal :=
    JSVal.orElse
      (if config.indent_style = .str "tab" then
        JSVal.orElse config.tab_width config.indent_size
      else
        config.tab_width)
      defaults.tabSize
  let indentSize0 : JSVal :=
    JSVal.orElse
      (if config.indent_style = .str "tab" then
        JSVal.orElse config.indent_size (.str "tabSize")
      else
        config.indent_size)
      defaults.indentSize
  let tabSize1 : JSVal :=
    if tabSize0 = .str "tab" then config.tab_width else tabSize0
  let indentSize1 : JSVal :=
    if indentSize0 = .str "tab" then .str "tabSize" else indentSize0
  let insertSpaces1 : JSVal :=
    if config.indent_style = .str "tab" ∨ config.indent_size = .str "tab" ∨
        config.indent_style = .str "space" then
      .bool (config.indent_style = .str "space")
    else
      .undef
  let tabSize2 : JSVal :=
    if tabSize1 = .undef ∨ tabSize1 = .str "unset" then .undef else tabSize1
  let indentSize2 : JSVal :=
    if indentSize1 = .undef ∨ indentSize1 = .str "unset" then .undef
    else indentSize1
  { tabSize := tabSize2, indentSize := indentSize2, insertSpaces := insertSpaces1 }

/-- JS `parseInt(s, 10)`: skip leading whitespace, optional sign, then a
maximal run of decimal digits; `NaN` when no digit follows. -/
def parseInt10 (s : String) : JSVal :=
  let cs := s.toList.dropWhile fun c =>
    c = ' ' ∨ c = '\t' ∨ c = '\n' ∨ c = '\r'
  let core : List Char → JSVal := fun ds =>
    let digits := ds.takeWhile Char.isDigit
    if digits.isEmpty then .nan
    else .num (Int.ofNat (digits.foldl (fun acc c => acc * 10 + (c.toNat - 48)) 0))
  match cs with
  | '-' :: rest =>
    match core rest with
    | .num n => .num (-n)
    | v => v
  | '+' :: rest => core rest
  | _ => core cs

/-- Embedding of the nested `resolveTabSize` of `toEditorConfig`
(src/api.ts lines 220-222): `tabSize === 'auto' ? 4 : parseInt(String(tabSize), 10)`. -/
def resolveTabSize (tabSize : JSVal) : JSVal :=
  if tabSize = .str "auto" then .num 4 else parseInt10 tabSize.toJSString

/-- Embedding of `toEditorConfig` (src/api.ts lines 196-216): the `switch` on
`options.insertSpaces` with cases `true`, and `false`/`'auto'` sharing a body;
any other discriminant leaves the result record empty. -/
def toEditorConfig (options : TextEditorOptions) : KnownProps :=
  if options.insertSpaces = .bool true then
    { indent_style := .str "space"
      indent_size :=
        if options.tabSize.truthy then resolveTabSize options.tabSize
        else .undef }
  else if options.insertSpaces = .bool false ∨ options.insertSpaces = .str "auto" then
    { indent_style := .str "tab"
      tab_width :=
        if options.tabSize.truthy then resolveTabSize options.tabSize
        else .undef }
  else
    {}

/-- The `vscode.TextDocument` fields read by `src/api.ts`. -/
structure TextDocument where
  languageId : String
  isUntitled : Bool
  uriFsPath : String
  fileName : String
deriving Repr

/-- The host environment `src/api.ts` interacts with: workspace folders,
`workspace.asRelativePath`, the `editor.*` configuration section, and the
external `editorconfig.parse` collaborator (keyed by absolute file name). -/
structure Workspace where
  workspaceFolders : List String
  relativePathOf : String → String
  editorSection : EditorSection
  parse : String → KnownProps

/-- Result record of `resolveFile`: `fileName?` and `relativePath?`. -/
structure ResolvedFile where
  fileName : Option String
  relativePath : Option String
deriving Repr, DecidableEq

/-- Embedding of `resolveFile` (src/api.ts lines 130-152): 'Log' documents
resolve to nothing; saved documents use their uri; untitled documents join the
first workspace folder with the document's file name, or resolve to nothing
when no folder exists.  `Uri.joinPath` is modelled as path concatenation. -/
def resolveFile (ws : Workspace) (doc : TextDocument) : ResolvedFile :=
  if doc.languageId = "Log" then
    ⟨none, none⟩
  else
    let file : Option String :=
      if ¬ doc.isUntitled then
        some doc.uriFsPath
      else
        match ws.workspaceFolders with
        | f :: _ => some (f ++ "/" ++ doc.fileName)
        | [] => none
    ⟨file, file.map ws.relativePathOf⟩

/-- Embedding of `resolveCoreConfig` (src/api.ts lines 108-128).  The second
component records the argument of the `onBeforeResolve` callback when it is
invoked (the source guards the call with JS truthiness of `relativePath`,
which excludes the empty string). -/
def resolveCoreConfig (ws : Workspace) (doc : TextDocument) :
    KnownProps × Option String :=
  let rf := resolveFile ws doc
  match rf.fileName with
  | none => ({}, none)
  | some fn =>
    let before : Option String :=
      match rf.relativePath with
      | some rp => if rp ≠ "" then some rp else none
      | none => none
    let config := ws.parse fn
    let config :=
      if config.indent_size = .str "tab" then
        { config with indent_size := config.tab_width }
      else
        config
    (config, before)

/-- JS truthiness of an object value: an object is always truthy.  The guard
`if (editorconfigSettings)` in `resolveTextEditorOptions` (src/api.ts line 21)
tests exactly this, since `resolveCoreConfig` always returns an object. -/
def objectTruthy (_config : KnownProps) : Bool :=
  true

/-- Callback invocations observed during one `resolveTextEditorOptions` run:
for each callback, the argument it was invoked with, or `none`. -/
structure ResolveEvents where
  onBeforeResolve : Option String
  onEmptyConfig : Option String
deriving Repr, DecidableEq

/-- Embedding of `resolveTextEditorOptions` (src/api.ts lines 8-31).  Because
`objectTruthy` always holds, the `onEmptyConfig` branch of the source is
unreachable and is reproduced here under the same dead guard. -/
def resolveTextEditorOptions (ws : Workspace) (doc : TextDocument) :
    TextEditorOptions × ResolveEvents :=
  let (editorconfigSettings, before) := resolveCoreConfig ws doc
  if objectTruthy editorconfigSettings then
    (fromEditorConfig editorconfigSettings (pickWorkspaceDefaults ws.editorSection),
      ⟨before, none⟩)
  else
    let rp := (resolveFile ws doc).relativePath
    let emptyEv : Option String :=
      match rp with
      | some s => if s ≠ "" then some s else none
      | none => none
    ({}, ⟨before, emptyEv⟩)

/-- Live editor state: the mutable `options` field of the active text editor. -/
structure Editor where
  options : TextEditorOptions
deriving Repr, DecidableEq

/-- Outcome of `applyTextEditorOptions`: either no active editor (the
`onNoActiveTextEditor` callback fires), or success carrying the final
(possibly reconciled) options object — which is both assigned to
`editor.options` and passed to `onSuccess` — and the resulting editor state. -/
inductive ApplyResult where
  | noActiveTextEditor
  | success (finalOptions : TextEditorOptions) (editor : Editor)
deriving Repr, DecidableEq

/-- Embedding of `applyTextEditorOptions` (src/api.ts lines 36-67).
`hostIndentSize` is `workspace.getConfiguration('editor', editor.document).get('indentSize')`. -/
def applyTextEditorOptions (hostIndentSize : JSVal) (editor : Option Editor)
    (newOptions : TextEditorOptions) : ApplyResult :=
  match editor with
  | none => .noActiveTextEditor
  | some ed =>
    let newOptions1 :=
      if hostIndentSize = .str "tabSize" ∧ newOptions.indentSize = .undef ∧
          newOptions.tabSize.isNum then
        { newOptions with indentSize := ed.options.indentSize }
      else
        newOptions
    .success newOptions1 ⟨newOptions1⟩

/-! Concrete host environments and documents used to evaluate the resolution
pipeline at specific inputs. -/

/-- A workspace whose `editorconfig.parse` collaborator returns an empty
config for every file, with indentation detection off and workspace defaults
`tabSize = 8`, `indentSize = 8`, `insertSpaces = true`. -/
def wsEmptyParse : Workspace :=
  { workspaceFolders := []
    relativePathOf := fun _ => "a.ts"
    editorSection :=
      { detectIndentation := .bool false
        tabSize := .num 8
        indentSize := .num 8
        insertSpaces := .bool true }
    parse := fun _ => {} }

/-- A saved (non-untitled) TypeScript document. -/
def docSaved : TextDocument :=
  { languageId := "typescript"
    isUntitled := false
    uriFsPath := "/p/a.ts"
    fileName := "/p/a.ts" }

/-- A virtual 'Log' document, for which `resolveFile` yields no file name. -/
def docLogDoc : TextDocument :=
  { languageId := "Log"
    isUntitled := false
    uriFsPath := "/p/x"
    fileName := "/p/x" }

/-- C1: the spec says an empty parsed config makes `resolveTextEditorOptions`
invoke `onEmptyConfig(relativePath)` and return `{}`.  The code instead guards
with `if (editorconfigSettings)`, which tests JS object truthiness and is
always true, so `onEmptyConfig` is never invoked and the result is
`fromEditorConfig({}, workspace defaults)` — here `{tabSize: 8, indentSize: 8}`,
a record merged from workspace defaults, not `{}`. -/
theorem resolveTextEditorOptions_emptyConfig_bug :
    (resolveTextEditorOptions wsEmptyParse docSaved).2.onEmptyConfig = none ∧
    (resolveTextEditorOptions wsEmptyParse docSaved).2.onBeforeResolve = some "a.ts" ∧
    (resolveTextEditorOptions wsEmptyParse docSaved).1 =
      { tabSize := .num 8, indentSize := .num 8 } ∧
    (resolveTextEditorOptions wsEmptyParse docSaved).1 ≠ {} := by
  decide

/-- C2: the spec says that when the File Resolver yields no file name the
result is an empty options record with no contribution from workspace
defaults.  For a 'Log' document `resolveFile` indeed yields no file name and
`resolveCoreConfig` returns `{}`, but the always-true object-truthiness guard
in `resolveTextEditorOptions` then merges the workspace defaults, producing
`{tabSize: 8, indentSize: 8}` instead of `{}`. -/
theorem resolveTextEditorOptions_noFileName_bug :
    (resolveFile wsEmptyParse docLogDoc).fileName = none ∧
    (resolveTextEditorOptions wsEmptyParse docLogDoc).1 =
      { tabSize := .num 8, indentSize := .num 8 } ∧
    (resolveTextEditorOptions wsEmptyParse docLogDoc).1 ≠ {} := by
  decide

/-- C3: for every config and defaults, if `config.indent_style` is "tab" then
the `insertSpaces` field of `fromEditorConfig`'s result is `false` (hence
never `true`), and if `config.indent_style` is "space" it is exactly `true`. -/
theorem fromEditorConfig_insertSpaces_of_indent_style (config : KnownProps)
    (defaults : TextEditorOptions) :
    (config.indent_style = .str "tab" →
      (fromEditorConfig config defaults).insertSpaces = .bool false) ∧
    (config.indent_style = .str "space" →
      (fromEditorConfig config defaults).insertSpaces = .bool true) := by
  constructor
  · intro h
    simp [fromEditorConfig, h]
  · intro h
    simp [fromEditorConfig, h]

/-- Witness for C3 at concrete configs. -/
theorem fromEditorConfig_insertSpaces_of_indent_style_witness :
    (fromEditorConfig { indent_style := .str "tab" } {}).insertSpaces = .bool false ∧
    (fromEditorConfig { indent_style := .str "space" } {}).insertSpaces = .bool true :=
  ⟨(fromEditorConfig_insertSpaces_of_indent_style { indent_style := .str "tab" } {}).1 rfl,
    (fromEditorConfig_insertSpaces_of_indent_style { indent_style := .str "space" } {}).2 rfl⟩

/-- C4: for every config whose `indent_style` is explicitly "tab" or "space",
the options produced by `fromEditorConfig config {}` have `insertSpaces`
defined, and feeding them to `toEditorConfig` yields the original
`indent_style` back. -/
theorem toEditorConfig_fromEditorConfig_roundTrip (config : KnownProps)
    (h : config.indent_style = .str "tab" ∨ config.indent_style = .str "space")
    (hdef : (fromEditorConfig config {}).insertSpaces ≠ .undef) :
    (toEditorConfig (fromEditorConfig config {})).indent_style =
      config.indent_style := by
  rcases h with h | h <;> simp [fromEditorConfig, toEditorConfig, h]

/-- Witness for C4 at a concrete tab-style config. -/
theorem toEditorConfig_fromEditorConfig_roundTrip_witness :
    (toEditorConfig (fromEditorConfig { indent_style := .str "tab" } {})).indent_style =
      JSVal.str "tab" :=
  toEditorConfig_fromEditorConfig_roundTrip { indent_style := .str "tab" }
    (Or.inl rfl) (by decide)

/-- C5 counterexample: the claim "for every defaults record,
`fromEditorConfig {} defaults` returns exactly
`{tabSize := defaults.tabSize, indentSize := defaults.indentSize}`" fails at
`defaults = {tabSize := "tab"}`: the post-fix rewrites the "tab" sentinel to
the (absent) `config.tab_width` and then deletes the field. -/
theorem fromEditorConfig_empty_defaults_verbatim_cex :
    ¬ (fromEditorConfig {} { tabSize := .str "tab" } =
        { tabSize := .str "tab", indentSize := .undef, insertSpaces := .undef }) := by
  decide

/-- C5 amended: for every defaults record whose `tabSize` and `indentSize` are
not the sentinel strings "tab" or "unset", `fromEditorConfig {} defaults`
returns exactly `{tabSize := defaults.tabSize, indentSize := defaults.indentSize}`
with `insertSpaces` omitted; `defaults.insertSpaces` never appears. -/
theorem fromEditorConfig_empty_config_defaults (defaults : TextEditorOptions)
    (ht1 : defaults.tabSize ≠ .str "tab") (ht2 : defaults.tabSize ≠ .str "unset")
    (hi1 : defaults.indentSize ≠ .str "tab") (hi2 : defaults.indentSize ≠ .str "unset") :
    fromEditorConfig {} defaults =
      { tabSize := defaults.tabSize
        indentSize := defaults.indentSize
        insertSpaces := .undef } := by
  simp only [fromEditorConfig, JSVal.orElse]
  simp only [TextEditorOptions.mk.injEq]
  refine ⟨?_, ?_, by simp⟩
  · split <;> split <;> simp_all
  · split <;> split <;> simp_all

/-- Witness for C5's amended claim at a concrete defaults record. -/
theorem fromEditorConfig_empty_config_defaults_witness :
    fromEditorConfig {}
        { tabSize := .num 8, indentSize := .num 2, insertSpaces := .bool true } =
      { tabSize := .num 8, indentSize := .num 2, insertSpaces := .undef } :=
  fromEditorConfig_empty_config_defaults
    { tabSize := .num 8, indentSize := .num 2, insertSpaces := .bool true }
    (by decide) (by decide) (by decide) (by decide)

/-- C6: `fromEditorConfig {indent_style := "tab", indent_size := "tab",
tab_width := 4} {}` resolves `tabSize = 4` and `indentSize = "tabSize"` (the
post-fix dereferences the "tab" sentinel carried through the fallback chain). -/
theorem fromEditorConfig_tab_sentinel_chain :
    (fromEditorConfig
        { indent_style := .str "tab", indent_size := .str "tab", tab_width := .num 4 }
        {}).tabSize = .num 4 ∧
    (fromEditorConfig
        { indent_style := .str "tab", indent_size := .str "tab", tab_width := .num 4 }
        {}).indentSize = .str "tabSize" := by
  decide

/-- C7: whenever `options.insertSpaces` is exactly `true`, `toEditorConfig`
sets `indent_style = "space"` and, when `tabSize` is truthy, sets
`indent_size` to `resolveTabSize options.tabSize`; the "auto" sentinel
normalizes to exactly 4, so `toEditorConfig {insertSpaces := true,
tabSize := "auto"}` yields `{indent_style := "space", indent_size := 4}`. -/
theorem toEditorConfig_insertSpaces_true (options : TextEditorOptions)
    (h : options.insertSpaces = .bool true) :
    (toEditorConfig options).indent_style = .str "space" ∧
    (options.tabSize.truthy →
      (toEditorConfig options).indent_size = resolveTabSize options.tabSize) ∧
    resolveTabSize (.str "auto") = .num 4 ∧
    toEditorConfig { insertSpaces := .bool true, tabSize := .str "auto" } =
      { indent_style := .str "space", indent_size := .num 4 } := by
  refine ⟨?_, ?_, by decide, by decide⟩
  · simp [toEditorConfig, h]
  · intro ht
    simp [toEditorConfig, h, ht]

/-- Witness for C7 at a concrete options record. -/
theorem toEditorConfig_insertSpaces_true_witness :
    (toEditorConfig { insertSpaces := .bool true, tabSize := .num 2 }).indent_style =
      JSVal.str "space" :=
  (toEditorConfig_insertSpaces_true { insertSpaces := .bool true, tabSize := .num 2 }
    rfl).1

/-- C8: for every options record whose `insertSpaces` is neither `true`,
`false` nor the string "auto" (including absent), `toEditorConfig` returns the
empty fragment; in particular `toEditorConfig {insertSpaces := undefined}`
yields `{}`. -/
theorem toEditorConfig_unknown_insertSpaces (options : TextEditorOptions)
    (h1 : options.insertSpaces ≠ .bool true)
    (h2 : options.insertSpaces ≠ .bool false)
    (h3 : options.insertSpaces ≠ .str "auto") :
    toEditorConfig options = {} ∧
    toEditorConfig { insertSpaces := .undef } = {} := by
  refine ⟨?_, by decide⟩
  simp [toEditorConfig, h1, h2, h3]

/-- Witness for C8 at a concrete options record. -/
theorem toEditorConfig_unknown_insertSpaces_witness :
    toEditorConfig { insertSpaces := .str "always", tabSize := .num 2 } = {} :=
  (toEditorConfig_unknown_insertSpaces { insertSpaces := .str "always", tabSize := .num 2 }
    (by decide) (by decide) (by decide)).1

/-- C9: in `applyTextEditorOptions`, when the host's `editor.indentSize`
setting equals "tabSize", the new options leave `indentSize` undefined, and
the new options carry a numeric `tabSize`, the editor's current live
`indentSize` is copied into the new options; the editor's options are
replaced by that reconciled record and the same record is passed to
`onSuccess` (the `success` payload). -/
theorem applyTextEditorOptions_mirror_reconciles (hostIndentSize : JSVal)
    (ed : Editor) (newOptions : TextEditorOptions) (n : Int)
    (hhost : hostIndentSize = .str "tabSize")
    (hindent : newOptions.indentSize = .undef)
    (htab : newOptions.tabSize = .num n) :
    applyTextEditorOptions hostIndentSize (some ed) newOptions =
      .success { newOptions with indentSize := ed.options.indentSize }
        ⟨{ newOptions with indentSize := ed.options.indentSize }⟩ := by
  simp [applyTextEditorOptions, hhost, hindent, htab, JSVal.isNum]

/-- Witness for C9 at a concrete editor and options record. -/
theorem applyTextEditorOptions_mirror_reconciles_witness :
    applyTextEditorOptions (.str "tabSize")
        (some ⟨{ tabSize := .num 4, indentSize := .num 3, insertSpaces := .bool true }⟩)
        { tabSize := .num 8 } =
      .success { tabSize := .num 8, indentSize := .num 3 }
        ⟨{ tabSize := .num 8, indentSize := .num 3 }⟩ :=
  applyTextEditorOptions_mirror_reconciles (.str "tabSize")
    ⟨{ tabSize := .num 4, indentSize := .num 3, insertSpaces := .bool true }⟩
    { tabSize := .num 8 } 8 rfl rfl rfl

/-- C10: noninterference of `defaults.insertSpaces`: `fromEditorConfig` never
reads it, so any two defaults records agreeing on `tabSize` and `indentSize`
(hence differing at most in `insertSpaces`) produce identical results for
every config — even though `pickWorkspaceDefaults` does supply the workspace
`insertSpaces` value whenever indentation detection is off. -/
theorem fromEditorConfig_insertSpaces_noninterference (config : KnownProps)
    (d1 d2 : TextEditorOptions)
    (ht : d1.tabSize = d2.tabSize) (hi : d1.indentSize = d2.indentSize) :
    fromEditorConfig config d1 = fromEditorConfig config d2 ∧
    ∀ cfg : EditorSection, cfg.detectIndentation.truthy = false →
      (pickWorkspaceDefaults cfg).insertSpaces = cfg.insertSpaces := by
  constructor
  · simp [fromEditorConfig, ht, hi]
  · intro cfg h
    simp [pickWorkspaceDefaults, h]

/-- Witness for C10: two defaults differing only in `insertSpaces`. -/
theorem fromEditorConfig_insertSpaces_noninterference_witness :
    fromEditorConfig { indent_style := .str "space" }
        { tabSize := .num 4, indentSize := .num 2, insertSpaces := .bool true } =
      fromEditorConfig { indent_style := .str "space" }
        { tabSize := .num 4, indentSize := .num 2, insertSpaces := .bool false } :=
  (fromEditorConfig_insertSpaces_noninterference { indent_style := .str "space" }
    { tabSize := .num 4, indentSize := .num 2, insertSpaces := .bool true }
    { tabSize := .num 4, indentSize := .num 2, insertSpaces := .bool false }
    rfl rfl).1
